import Mathlib

/-!
Verification of the kiagnose checkup lifecycle orchestrator
(`kiagnose/internal/checkup/checkup.go`) and of the kubevirt-vm-latency
configuration validator (known through its test file), as a shallow
embedding in Lean 4.

Conventions of the embedding:
* Go strings are Lean `String`; Go `time.Duration` is an `Int` counting
  nanoseconds; Go `int64`/`int32` values are `Int`.
* Go pointers that may be nil are `Option`; external collaborator calls
  (Kubernetes CRUD, waiting, log fetching) are oracles packed in a
  `Client` structure: a call returning `(T, error)` becomes
  `Except String T` and a call returning bare `error` becomes
  `Option String` (`none` = success).  Error values are their messages.
* The orchestrator's methods mutate the receiver; here they return the
  updated `Checkup` together with the returned error and the ordered
  trace of collaborator operations attempted (`List Op`), which makes
  "attempts X", "stops at the first failure" and "never deletes during
  setup" directly statable.
-/

/-- Go `corev1.EnvVar` (name/value pairs only, as used by the checkup). -/
structure EnvVar where
  name : String
  value : String
deriving DecidableEq, Repr

/-- Go `rbacv1.PolicyRule`, the fields set by `newConfigMapWriterPolicyRule`. -/
structure PolicyRule where
  verbs : List String
  apiGroups : List String
  resources : List String
  resourceNames : List String
deriving DecidableEq, Repr

/-- Go `rbacv1.Role`: object meta (name, namespace) plus rules. -/
structure Role where
  name : String
  nsName : String
  rules : List PolicyRule
deriving DecidableEq, Repr

/-- Go `rbacv1.Subject`. -/
structure Subject where
  kind : String
  name : String
  nsName : String
deriving DecidableEq, Repr

/-- Go `rbacv1.RoleRef`. -/
structure RoleRef where
  kind : String
  apiGroup : String
  name : String
deriving DecidableEq, Repr

/-- Go `rbacv1.RoleBinding`. -/
structure RoleBinding where
  name : String
  nsName : String
  subjects : List Subject
  roleRef : RoleRef
deriving DecidableEq, Repr

/-- Go `corev1.ConfigMap`: object meta plus its key/value data. -/
structure ConfigMap where
  name : String
  nsName : String
  data : List (String × String)
deriving DecidableEq, Repr

/-- Go `corev1.Container`, the fields set by `NewCheckupJob`. -/
structure Container where
  name : String
  image : String
  env : List EnvVar
deriving DecidableEq, Repr

/-- Go `corev1.PodSpec`, the fields set by `NewCheckupJob`.
`terminationGracePeriodSeconds` is a nullable pointer in Go. -/
structure PodSpec where
  serviceAccountName : String
  restartPolicy : String
  terminationGracePeriodSeconds : Option Int
  containers : List Container
deriving DecidableEq, Repr

/-- Go `batchv1.JobSpec`, the fields set by `NewCheckupJob`.
`backoffLimit` and `activeDeadlineSeconds` are nullable pointers in Go. -/
structure JobSpec where
  backoffLimit : Option Int
  activeDeadlineSeconds : Option Int
  template : PodSpec
deriving DecidableEq, Repr

/-- Go `batchv1.Job`: object meta, spec, and an abstract status field
(the orchestrator never inspects the status, it only stores the
status-updated object returned by the completion wait). -/
structure Job where
  name : String
  nsName : String
  spec : JobSpec
  status : String
deriving DecidableEq, Repr

/-- Go `corev1.RestartPolicyNever`. -/
def RestartPolicyNever : String := "Never"

/-- Go `rbacv1.GroupName`. -/
def RbacGroupName : String := "rbac.authorization.k8s.io"

/-- Go `rbacv1.ServiceAccountKind`. -/
def ServiceAccountKind : String := "ServiceAccount"

/-- `NameResultsConfigMap` from checkup.go. -/
def NameResultsConfigMap (checkupName : String) : String :=
  checkupName ++ "-results"

/-- `NameResultsConfigMapWriterRole` from checkup.go. -/
def NameResultsConfigMapWriterRole (checkupName : String) : String :=
  checkupName ++ "-results-cm-writer"

/-- `NameJob` from checkup.go. -/
def NameJob (checkupName : String) : String :=
  checkupName ++ "-checkup"

/-- `NewConfigMap` from checkup.go: a config map with only meta set. -/
def NewConfigMap (namespaceName name : String) : ConfigMap :=
  { name := name, nsName := namespaceName, data := [] }

/-- `newConfigMapWriterPolicyRule` from checkup.go. -/
def newConfigMapWriterPolicyRule (cmName : String) : PolicyRule :=
  { verbs := ["get", "update", "patch"]
    apiGroups := [""]
    resources := ["configmaps"]
    resourceNames := [cmName] }

/-- `NewConfigMapWriterRole` from checkup.go. -/
def NewConfigMapWriterRole (namespaceName name configMapName : String) : Role :=
  { name := name
    nsName := namespaceName
    rules := [newConfigMapWriterPolicyRule configMapName] }

/-- `NewRoleBinding` from checkup.go. -/
def NewRoleBinding (namespaceName roleName : String) (subject : Subject) : RoleBinding :=
  { name := roleName
    nsName := namespaceName
    subjects := [subject]
    roleRef := { kind := "Role", apiGroup := RbacGroupName, name := roleName } }

/-- `NewServiceAccountSubject` from checkup.go. -/
def NewServiceAccountSubject (serviceAccountNamespace serviceAccountName : String) : Subject :=
  { kind := ServiceAccountKind
    name := serviceAccountName
    nsName := serviceAccountNamespace }

/-- `NewCheckupJob` from checkup.go. -/
def NewCheckupJob (namespaceName name serviceAccountName image : String)
    (activeDeadlineSeconds : Int) (envs : List EnvVar) : Job :=
  let containerName := "checkup"
  let checkupContainer : Container := { name := containerName, image := image, env := envs }
  let defaultTerminationGracePeriodSeconds : Int := 5
  let checkupPodSpec : PodSpec :=
    { serviceAccountName := serviceAccountName
      restartPolicy := RestartPolicyNever
      terminationGracePeriodSeconds := some defaultTerminationGracePeriodSeconds
      containers := [checkupContainer] }
  let backoffLimit : Int := 0
  { name := name
    nsName := namespaceName
    spec :=
      { backoffLimit := some backoffLimit
        activeDeadlineSeconds := some activeDeadlineSeconds
        template := checkupPodSpec }
    status := "" }

/-- One nanosecond-count per second: Go `time.Second`. -/
def goSecond : Int := 1000000000

/-- Five minutes in nanoseconds: Go `time.Minute * 5`, the
`defaultTeardownTimeout` constant inside `New`. -/
def defaultTeardownTimeout : Int := 5 * 60 * goSecond

/-- Go `int64(d.Seconds())` for a duration `d` in nanoseconds: float
division by 1e9 followed by truncation toward zero.  For durations below
2^53 ns the float is exact, so this is integer truncating division. -/
def goDurationSeconds (d : Int) : Int := Int.tdiv d goSecond

/-- `UIDEnvVarName` from checkup.go. -/
def UIDEnvVarName : String := "CHECKUP_UID"

/-- `ResultsConfigMapNameEnvVarName` from checkup.go. -/
def ResultsConfigMapNameEnvVarName : String := "RESULT_CONFIGMAP_NAME"

/-- `ResultsConfigMapNameEnvVarNamespace` from checkup.go. -/
def ResultsConfigMapNameEnvVarNamespace : String := "RESULT_CONFIGMAP_NAMESPACE"

/-- The fields of `config.Config` (kiagnose/internal/config) that
checkup.go reads: UID, image, timeout, service-account name and extra
environment variables.  `timeout` is a duration in nanoseconds. -/
structure Config where
  uid : String
  image : String
  timeout : Int
  serviceAccountName : String
  envVars : List EnvVar
deriving DecidableEq, Repr

/-- The `Checkup` struct from checkup.go (the `client` handle is not
part of the state here: collaborator calls are passed explicitly). -/
structure Checkup where
  teardownTimeout : Int
  resultConfigMap : ConfigMap
  roles : List Role
  roleBindings : List RoleBinding
  jobTimeout : Int
  job : Option Job
deriving DecidableEq, Repr

/-- `New` from checkup.go: derives the object names from the run name,
builds the result config map, the writer role, its binding, the env vars
and the job description, and returns the initial orchestrator state. -/
def New (targetNsName name : String) (checkupConfig : Config) : Checkup :=
  let resultsConfigMapName := NameResultsConfigMap name
  let resultsConfigMapWriterRoleName := NameResultsConfigMapWriterRole name
  let jobName := NameJob name
  let checkupRoles :=
    [NewConfigMapWriterRole targetNsName resultsConfigMapWriterRoleName resultsConfigMapName]
  let serviceAccountSubject :=
    NewServiceAccountSubject targetNsName checkupConfig.serviceAccountName
  let checkupRoleBindings :=
    checkupRoles.map (fun role => NewRoleBinding targetNsName role.name serviceAccountSubject)
  let checkupEnvVars : List EnvVar :=
    [{ name := UIDEnvVarName, value := checkupConfig.uid },
     { name := ResultsConfigMapNameEnvVarName, value := resultsConfigMapName },
     { name := ResultsConfigMapNameEnvVarNamespace, value := targetNsName }]
    ++ checkupConfig.envVars
  { teardownTimeout := defaultTeardownTimeout
    resultConfigMap := NewConfigMap targetNsName resultsConfigMapName
    roles := checkupRoles
    roleBindings := checkupRoleBindings
    jobTimeout := checkupConfig.timeout
    job := some (NewCheckupJob targetNsName jobName checkupConfig.serviceAccountName
      checkupConfig.image (goDurationSeconds checkupConfig.timeout) checkupEnvVars) }

/-- One collaborator operation attempted by the orchestrator, recorded
with the arguments the orchestrator passed. -/
inductive Op where
  | createConfigMap (cm : ConfigMap)
  | createRoles (rs : List Role)
  | createRoleBindings (rbs : List RoleBinding)
  | createJob (j : Option Job)
  | waitForJob (j : Job) (timeout : Int)
  | deleteJobAndWait (j : Job) (timeout : Int)
  | deleteRoleBindings (rbs : List RoleBinding)
  | deleteRoles (rs : List Role)
  | deleteConfigMap (nsName name : String)
  | getLogs (j : Job)
deriving DecidableEq, Repr

/-- Whether an operation deletes a cluster object. -/
def Op.isDelete : Op → Bool
  | .deleteJobAndWait _ _ => true
  | .deleteRoleBindings _ => true
  | .deleteRoles _ => true
  | .deleteConfigMap _ _ => true
  | _ => false

/-- The external collaborators of checkup.go (configmap, rbac, job and
results packages), as outcome oracles.  A Go call returning
`(T, error)` becomes `Except String T`; a call returning bare `error`
becomes `Option String` with `none` meaning success. -/
structure Client where
  configmapCreate : ConfigMap → Except String ConfigMap
  createRoles : List Role → Except String (List Role)
  createRoleBindings : List RoleBinding → Except String (List RoleBinding)
  jobCreate : Option Job → Except String Job
  waitForJobToFinish : Job → Int → Except String Job
  jobDeleteAndWait : Job → Int → Option String
  deleteRoleBindings : List RoleBinding → Option String
  deleteRoles : List Role → Option String
  configmapDelete : (nsName : String) → (name : String) → Option String
  getLogs : Job → Except String String
  readFromConfigMap : (nsName : String) → (name : String) →
    Except String (List (String × String))

/-- The result of one orchestrator method: the updated state, the Go
return value (`none` = nil error), and the ordered trace of collaborator
operations it attempted. -/
structure MethodResult where
  state : Checkup
  err : Option String
  trace : List Op
deriving Repr

/-- `(*Checkup).Setup` from checkup.go: create the result config map,
then the roles, then the role bindings, each replacing the stored field
with the created object; stop at the first failing call and return its
error formatted `fmt.Errorf("%s: %v", "setup", err)`. -/
def Checkup.setup (cl : Client) (c : Checkup) : MethodResult :=
  match cl.configmapCreate c.resultConfigMap with
  | .error e =>
      { state := c, err := some ("setup: " ++ e)
        trace := [.createConfigMap c.resultConfigMap] }
  | .ok cm =>
      let c1 := { c with resultConfigMap := cm }
      match cl.createRoles c1.roles with
      | .error e =>
          { state := c1, err := some ("setup: " ++ e)
            trace := [.createConfigMap c.resultConfigMap, .createRoles c1.roles] }
      | .ok rs =>
          let c2 := { c1 with roles := rs }
          match cl.createRoleBindings c2.roleBindings with
          | .error e =>
              { state := c2, err := some ("setup: " ++ e)
                trace := [.createConfigMap c.resultConfigMap, .createRoles c1.roles,
                          .createRoleBindings c2.roleBindings] }
          | .ok rbs =>
              { state := { c2 with roleBindings := rbs }, err := none
                trace := [.createConfigMap c.resultConfigMap, .createRoles c1.roles,
                          .createRoleBindings c2.roleBindings] }

/-- `(*Checkup).Run` from checkup.go: create the job, then block on
`job.WaitForJobToFinish` bounded by `c.jobTimeout`; either failure is
returned formatted `fmt.Errorf("%s: %v", "run", err)` and the wait's
status-updated job replaces the stored one on success. -/
def Checkup.run (cl : Client) (c : Checkup) : MethodResult :=
  match cl.jobCreate c.job with
  | .error e =>
      { state := c, err := some ("run: " ++ e), trace := [.createJob c.job] }
  | .ok j =>
      let c1 := { c with job := some j }
      match cl.waitForJobToFinish j c.jobTimeout with
      | .error e =>
          { state := c1, err := some ("run: " ++ e)
            trace := [.createJob c.job, .waitForJob j c.jobTimeout] }
      | .ok updatedJob =>
          { state := { c1 with job := some updatedJob }, err := none
            trace := [.createJob c.job, .waitForJob j c.jobTimeout] }

/-- `(*Checkup).Logs` from checkup.go.  Returns the Go error value, the
text written to the program log (`log.Printf` output, `none` when
nothing was printed) and the trace.  When `c.job` is nil it returns the
error `"job is nil"`; otherwise it fetches the logs, propagates a fetch
error unwrapped, and on success prints the logs and returns nil. -/
def Checkup.logs (cl : Client) (c : Checkup) :
    Option String × Option String × List Op :=
  match c.job with
  | none => (some "job is nil", none, [])
  | some j =>
      match cl.getLogs j with
      | .error e => (some e, none, [.getLogs j])
      | .ok logs =>
          (none, some ("checkup job \x22" ++ j.name ++ "\x22 Logs:\n" ++ logs ++ "\n"),
           [.getLogs j])

/-- `(*Checkup).SetTeardownTimeout` from checkup.go. -/
def Checkup.setTeardownTimeout (duration : Int) (c : Checkup) : Checkup :=
  { c with teardownTimeout := duration }

/-- `(*Checkup).Results` from checkup.go: read the result config map's
data through the collaborator and return it verbatim. -/
def Checkup.results (cl : Client) (c : Checkup) :
    Except String (List (String × String)) :=
  cl.readFromConfigMap c.resultConfigMap.nsName c.resultConfigMap.name

/-- `concentrateErrors` from checkup.go: append each error's message
followed by a newline to a string builder. -/
def concentrateErrors (errs : List String) : String :=
  errs.foldl (fun sb e => sb ++ e ++ "\n") ""

/-- `(*Checkup).Teardown` from checkup.go: attempt, in order,
delete-and-wait on the job (when the stored pointer is non-nil, bounded
by the teardown timeout), delete the role bindings, delete the roles,
delete the result config map; collect every failure and, when any
occurred, return them formatted
`fmt.Errorf("%s: %v", "teardown", concentrateErrors(errs))`. -/
def Checkup.teardown (cl : Client) (c : Checkup) : MethodResult :=
  let jobStep : List String × List Op :=
    match c.job with
    | none => ([], [])
    | some j =>
        match cl.jobDeleteAndWait j c.teardownTimeout with
        | some e => ([e], [.deleteJobAndWait j c.teardownTimeout])
        | none => ([], [.deleteJobAndWait j c.teardownTimeout])
  let rbStep : List String :=
    match cl.deleteRoleBindings c.roleBindings with
    | some e => [e]
    | none => []
  let roleStep : List String :=
    match cl.deleteRoles c.roles with
    | some e => [e]
    | none => []
  let cmStep : List String :=
    match cl.configmapDelete c.resultConfigMap.nsName c.resultConfigMap.name with
    | some e => [e]
    | none => []
  let errs := jobStep.1 ++ rbStep ++ roleStep ++ cmStep
  let trace := jobStep.2 ++
    [.deleteRoleBindings c.roleBindings, .deleteRoles c.roles,
     .deleteConfigMap c.resultConfigMap.nsName c.resultConfigMap.name]
  { state := c
    err := if errs.length > 0 then some ("teardown: " ++ concentrateErrors errs) else none
    trace := trace }

/-- Modelled from the spec: the parameter names the kubevirt-vm-latency
validator reads (its source is not under src; the names appear in the
checkup manifests as `spec.param.*` keys and symbolically in the tests). -/
def NetworkNameParamName : String := "network_attachment_definition_name"

/-- Modelled from the spec: see `NetworkNameParamName`. -/
def NetworkNamespaceParamName : String := "network_attachment_definition_namespace"

/-- Modelled from the spec: see `NetworkNameParamName`. -/
def SampleDurationSecondsParamName : String := "sample_duration_seconds"

/-- Modelled from the spec: see `NetworkNameParamName`. -/
def DesiredMaxLatencyMillisecondsParamName : String := "max_desired_latency_milliseconds"

/-- Modelled from the spec: see `NetworkNameParamName`. -/
def SourceNodeNameParamName : String := "source_node"

/-- Modelled from the spec: see `NetworkNameParamName`. -/
def TargetNodeNameParamName : String := "target_node"

/-- Modelled from the spec: the documented default for the optional
sample-duration key (the concrete number is not under src; only the
symbol `DefaultSampleDurationSeconds` is, in the tests). -/
def DefaultSampleDurationSeconds : Int := 5

/-- Modelled from the spec: the documented default for the optional
max-latency key (concrete number not under src). -/
def DefaultDesiredMaxLatencyMilliseconds : Int := 100

/-- The cause of a Go `strconv` integer-parse failure:
`strconv.ErrSyntax` (not an integer) or `strconv.ErrRange`. -/
inductive NumCause where
  | notAnInteger
  | outOfRange
deriving DecidableEq, Repr

/-- The validator's error taxonomy, from the tests and spec §7:
`ErrInvalidParams`, `ErrInvalidNetworkName`, `ErrInvalidNetworkNamespace`,
`ErrIllegalSourceAndTargetNodesCombination`, and numeric parse errors
that wrap the originating `strconv` cause (`numErr` keeps that cause,
so "not an integer" and "out of range" stay distinguishable). -/
inductive ConfigError where
  | invalidParams
  | invalidNetworkName
  | invalidNetworkNamespace
  | illegalSourceAndTargetNodesCombination
  | numErr (cause : NumCause)
deriving DecidableEq, Repr

/-- Modelled from the spec: Go `strconv.Atoi` on a 64-bit platform
(the validator's numeric parser; its call site is not under src).
Accepts an optional sign followed by decimal digits; any other shape
fails with the syntax cause, and a value outside the int64 range fails
with the range cause. -/
def goAtoi (s : String) : Except NumCause Int :=
  let (sign, digits) :=
    match s.data with
    | '+' :: rest => ((1 : Int), rest)
    | '-' :: rest => ((-1 : Int), rest)
    | l => ((1 : Int), l)
  if digits.isEmpty then .error .notAnInteger
  else if digits.all Char.isDigit then
    let n : Nat := digits.foldl (fun acc c => acc * 10 + (c.toNat - 48)) 0
    let v : Int := sign * (n : Int)
    if v < -9223372036854775808 ∨ 9223372036854775807 < v then .error .outOfRange
    else .ok v
  else .error .notAnInteger

/-- The validated execution plan of the vm-latency checkup
(`config.Config` of the vmlatency package), with the fields the tests
compare. -/
structure VmLatencyConfig where
  networkAttachmentDefinitionName : String
  networkAttachmentDefinitionNamespace : String
  sampleDurationSeconds : Int
  desiredMaxLatencyMilliseconds : Int
  sourceNodeName : String
  targetNodeName : String
deriving DecidableEq, Repr

/-- First-match lookup in the string map carried as an association
list (Go map keys are unique, so first match is the match). -/
def lookupParam : List (String × String) → String → Option String
  | [], _ => none
  | (k, v) :: rest, key => if k == key then some v else lookupParam rest key

/-- Modelled from the spec: the vm-latency validator `config.New`, whose
source is not under src (only its tests are).  Per spec §4.1 and the
tests: an absent or empty mapping fails with `invalidParams`; the
mandatory network name then namespace are checked in that fixed order,
an absent or empty value failing with that key's dedicated error; the
optional numeric keys fall back to their defaults when absent and
otherwise must parse as int64, a failure wrapping the `strconv` cause;
finally the source/target node pair must be both absent or both present
and non-empty, anything else failing with the paired-combination error. -/
def vmLatencyConfigNew (params : List (String × String)) :
    Except ConfigError VmLatencyConfig :=
  if params.isEmpty then .error .invalidParams
  else
    match lookupParam params NetworkNameParamName with
    | none => .error .invalidNetworkName
    | some netName =>
      if netName = "" then .error .invalidNetworkName
      else
        match lookupParam params NetworkNamespaceParamName with
        | none => .error .invalidNetworkNamespace
        | some netNs =>
          if netNs = "" then .error .invalidNetworkNamespace
          else
            let sampleRes : Except ConfigError Int :=
              match lookupParam params SampleDurationSecondsParamName with
              | none => .ok DefaultSampleDurationSeconds
              | some v =>
                  match goAtoi v with
                  | .error cause => .error (.numErr cause)
                  | .ok n => .ok n
            match sampleRes with
            | .error e => .error e
            | .ok sample =>
              let latencyRes : Except ConfigError Int :=
                match lookupParam params DesiredMaxLatencyMillisecondsParamName with
                | none => .ok DefaultDesiredMaxLatencyMilliseconds
                | some v =>
                    match goAtoi v with
                    | .error cause => .error (.numErr cause)
                    | .ok n => .ok n
              match latencyRes with
              | .error e => .error e
              | .ok latency =>
                let srcOpt := lookupParam params SourceNodeNameParamName
                let tgtOpt := lookupParam params TargetNodeNameParamName
                match srcOpt, tgtOpt with
                | none, none =>
                    .ok { networkAttachmentDefinitionName := netName
                          networkAttachmentDefinitionNamespace := netNs
                          sampleDurationSeconds := sample
                          desiredMaxLatencyMilliseconds := latency
                          sourceNodeName := ""
                          targetNodeName := "" }
                | some src, some tgt =>
                    if src = "" ∨ tgt = "" then
                      .error .illegalSourceAndTargetNodesCombination
                    else
                      .ok { networkAttachmentDefinitionName := netName
                            networkAttachmentDefinitionNamespace := netNs
                            sampleDurationSeconds := sample
                            desiredMaxLatencyMilliseconds := latency
                            sourceNodeName := src
                            targetNodeName := tgt }
                | _, _ => .error .illegalSourceAndTargetNodesCombination

/-- A sample validated configuration, used to instantiate theorems with
hypotheses at concrete inputs. -/
def cfgExample : Config :=
  { uid := "0123-uid"
    image := "quay.io/kiagnose/example:main"
    timeout := 90 * goSecond
    serviceAccountName := "example-sa"
    envVars := [{ name := "EXTRA", value := "1" }] }

/-- A sample job description. -/
def jobExample : Job :=
  NewCheckupJob "target-ns" "chk-checkup" "example-sa" "img" 90 []

/-- A sample orchestrator state holding a job. -/
def checkupExample : Checkup :=
  { teardownTimeout := 60 * goSecond
    resultConfigMap := NewConfigMap "target-ns" "chk-results"
    roles := [NewConfigMapWriterRole "target-ns" "chk-results-cm-writer" "chk-results"]
    roleBindings := [NewRoleBinding "target-ns" "chk-results-cm-writer"
      (NewServiceAccountSubject "target-ns" "example-sa")]
    jobTimeout := 90 * goSecond
    job := some jobExample }

/-- A collaborator oracle on which every call succeeds. -/
def clOk : Client :=
  { configmapCreate := fun cm => .ok cm
    createRoles := fun rs => .ok rs
    createRoleBindings := fun rbs => .ok rbs
    jobCreate := fun j => match j with
      | some j => .ok j
      | none => .error "nil job"
    waitForJobToFinish := fun j _ => .ok { j with status := "Complete" }
    jobDeleteAndWait := fun _ _ => none
    deleteRoleBindings := fun _ => none
    deleteRoles := fun _ => none
    configmapDelete := fun _ _ => none
    getLogs := fun _ => .ok "hello"
    readFromConfigMap := fun _ _ => .ok [("status.succeeded", "true")] }

/-- A collaborator oracle on which every call fails, with a distinct
message per operation. -/
def clFail : Client :=
  { configmapCreate := fun _ => .error "cm-create-failed"
    createRoles := fun _ => .error "roles-create-failed"
    createRoleBindings := fun _ => .error "rb-create-failed"
    jobCreate := fun _ => .error "job-create-failed"
    waitForJobToFinish := fun _ _ => .error "wait-failed"
    jobDeleteAndWait := fun _ _ => some "job-delete-failed"
    deleteRoleBindings := fun _ => some "rb-delete-failed"
    deleteRoles := fun _ => some "roles-delete-failed"
    configmapDelete := fun _ _ => some "cm-delete-failed"
    getLogs := fun _ => .error "logs-failed"
    readFromConfigMap := fun _ _ => .error "read-failed" }

/-- C9: for every run name `r`, the derived object names are
deterministic pure functions of `r`: the result-store (config map) name
is `r ++ "-results"`, the writer-role name is
`r ++ "-results-cm-writer"`, and the workload (job) name is
`r ++ "-checkup"`, both as the naming functions compute them and as they
appear in the state built by `New`. -/
theorem derived_names_deterministic (targetNs r : String) (cfg : Config) :
    NameResultsConfigMap r = r ++ "-results"
    ∧ NameResultsConfigMapWriterRole r = r ++ "-results-cm-writer"
    ∧ NameJob r = r ++ "-checkup"
    ∧ (New targetNs r cfg).resultConfigMap.name = r ++ "-results"
    ∧ ((New targetNs r cfg).roles.map Role.name) = [r ++ "-results-cm-writer"]
    ∧ (∃ j, (New targetNs r cfg).job = some j ∧ j.name = r ++ "-checkup") :=
  ⟨rfl, rfl, rfl, rfl, rfl, _, rfl, rfl⟩

/-- C8: for every result-store name, the writer role built by the
factory has exactly one policy rule; that rule grants exactly the verbs
get, update and patch on the configmaps resource of the core API group,
restricted by resource name to exactly the named result store. -/
theorem writer_role_least_privilege (nsName roleName cmName : String) :
    (NewConfigMapWriterRole nsName roleName cmName).rules.length = 1
    ∧ ∀ rule ∈ (NewConfigMapWriterRole nsName roleName cmName).rules,
        rule.verbs = ["get", "update", "patch"]
        ∧ rule.apiGroups = [""]
        ∧ rule.resources = ["configmaps"]
        ∧ rule.resourceNames = [cmName] := by
  refine ⟨rfl, ?_⟩
  intro rule hrule
  simp only [NewConfigMapWriterRole, List.mem_singleton] at hrule
  subst hrule
  exact ⟨rfl, rfl, rfl, rfl⟩

/-- Witness for `writer_role_least_privilege` at a concrete role. -/
theorem writer_role_least_privilege_witness :
    (newConfigMapWriterPolicyRule "chk-results").verbs = ["get", "update", "patch"]
    ∧ (newConfigMapWriterPolicyRule "chk-results").apiGroups = [""]
    ∧ (newConfigMapWriterPolicyRule "chk-results").resources = ["configmaps"]
    ∧ (newConfigMapWriterPolicyRule "chk-results").resourceNames = ["chk-results"] :=
  (writer_role_least_privilege "target-ns" "chk-results-cm-writer" "chk-results").2
    (newConfigMapWriterPolicyRule "chk-results")
    (by simp [NewConfigMapWriterRole])

/-- C7: for every validated plan, the job description held by a freshly
constructed orchestrator sets restart policy Never, a zero backoff
(retry) limit, an active deadline of `int64(timeout.Seconds())` seconds,
and a 5-second termination grace period. -/
theorem checkup_job_policies (targetNs r : String) (cfg : Config) :
    ∃ j, (New targetNs r cfg).job = some j
      ∧ j.spec.template.restartPolicy = RestartPolicyNever
      ∧ j.spec.backoffLimit = some 0
      ∧ j.spec.activeDeadlineSeconds = some (goDurationSeconds cfg.timeout)
      ∧ j.spec.template.terminationGracePeriodSeconds = some 5 :=
  ⟨_, rfl, rfl, rfl, rfl, rfl⟩

/-- C1: whenever the orchestrator holds a workload (which `New` always
establishes), `Teardown` attempts all four cleanup steps in order —
delete-and-wait on the job bounded by the teardown timeout, delete the
role bindings, delete the roles, delete the result config map — never
stopping at a failing step; the collected failures, in step order, are
returned as one error tagged `teardown` when any step failed, and no
error is returned when none failed. -/
theorem teardown_attempts_all_steps (cl : Client) (c : Checkup) (j : Job)
    (hj : c.job = some j) :
    (Checkup.teardown cl c).trace =
      [Op.deleteJobAndWait j c.teardownTimeout,
       Op.deleteRoleBindings c.roleBindings,
       Op.deleteRoles c.roles,
       Op.deleteConfigMap c.resultConfigMap.nsName c.resultConfigMap.name]
    ∧ (Checkup.teardown cl c).err =
        (if (cl.jobDeleteAndWait j c.teardownTimeout).toList
            ++ (cl.deleteRoleBindings c.roleBindings).toList
            ++ (cl.deleteRoles c.roles).toList
            ++ (cl.configmapDelete c.resultConfigMap.nsName c.resultConfigMap.name).toList
            = [] then none
         else some ("teardown: " ++ concentrateErrors
            ((cl.jobDeleteAndWait j c.teardownTimeout).toList
             ++ (cl.deleteRoleBindings c.roleBindings).toList
             ++ (cl.deleteRoles c.roles).toList
             ++ (cl.configmapDelete c.resultConfigMap.nsName c.resultConfigMap.name).toList)))
    ∧ (Checkup.teardown cl c).state = c := by
  cases h1 : cl.jobDeleteAndWait j c.teardownTimeout <;>
    cases h2 : cl.deleteRoleBindings c.roleBindings <;>
      cases h3 : cl.deleteRoles c.roles <;>
        cases h4 : cl.configmapDelete c.resultConfigMap.nsName c.resultConfigMap.name <;>
          simp [Checkup.teardown, hj, h1, h2, h3, h4]

/-- Witness for `teardown_attempts_all_steps`: on a state with a job and
an oracle on which every deletion fails, all four steps appear in the
trace and the returned error aggregates all four messages in step
order under the `teardown` tag. -/
theorem teardown_attempts_all_steps_witness :
    (Checkup.teardown clFail checkupExample).trace =
      [Op.deleteJobAndWait jobExample checkupExample.teardownTimeout,
       Op.deleteRoleBindings checkupExample.roleBindings,
       Op.deleteRoles checkupExample.roles,
       Op.deleteConfigMap checkupExample.resultConfigMap.nsName
         checkupExample.resultConfigMap.name]
    ∧ (Checkup.teardown clFail checkupExample).err =
        some ("teardown: " ++
          "job-delete-failed\nrb-delete-failed\nroles-delete-failed\ncm-delete-failed\n") := by
  have h := teardown_attempts_all_steps clFail checkupExample jobExample rfl
  exact ⟨h.1, by rw [h.2.1]; rfl⟩

/-- C2: `Setup` attempts creations in the fixed order result config
map, then roles, then role bindings; it stops at the first failing
creation and returns its error wrapped with the `setup` tag; it never
attempts a delete operation (no rollback of already-created objects);
on full success it stores the three created objects and returns no
error. -/
theorem setup_order_and_first_failure (cl : Client) (c : Checkup) :
    (∀ op ∈ (Checkup.setup cl c).trace, op.isDelete = false)
    ∧ (∀ e, cl.configmapCreate c.resultConfigMap = .error e →
        (Checkup.setup cl c).err = some ("setup: " ++ e)
        ∧ (Checkup.setup cl c).trace = [Op.createConfigMap c.resultConfigMap]
        ∧ (Checkup.setup cl c).state = c)
    ∧ (∀ cm e, cl.configmapCreate c.resultConfigMap = .ok cm →
        cl.createRoles c.roles = .error e →
        (Checkup.setup cl c).err = some ("setup: " ++ e)
        ∧ (Checkup.setup cl c).trace =
            [Op.createConfigMap c.resultConfigMap, Op.createRoles c.roles])
    ∧ (∀ cm rs e, cl.configmapCreate c.resultConfigMap = .ok cm →
        cl.createRoles c.roles = .ok rs →
        cl.createRoleBindings c.roleBindings = .error e →
        (Checkup.setup cl c).err = some ("setup: " ++ e)
        ∧ (Checkup.setup cl c).trace =
            [Op.createConfigMap c.resultConfigMap, Op.createRoles c.roles,
             Op.createRoleBindings c.roleBindings])
    ∧ (∀ cm rs rbs, cl.configmapCreate c.resultConfigMap = .ok cm →
        cl.createRoles c.roles = .ok rs →
        cl.createRoleBindings c.roleBindings = .ok rbs →
        (Checkup.setup cl c).err = none
        ∧ (Checkup.setup cl c).trace =
            [Op.createConfigMap c.resultConfigMap, Op.createRoles c.roles,
             Op.createRoleBindings c.roleBindings]
        ∧ (Checkup.setup cl c).state =
            { c with resultConfigMap := cm, roles := rs, roleBindings := rbs }) := by
  refine ⟨?_, ?_, ?_, ?_, ?_⟩
  · intro op hop
    revert hop
    cases h1 : cl.configmapCreate c.resultConfigMap with
    | error e =>
      simp only [Checkup.setup, h1, List.mem_singleton]
      rintro rfl
      rfl
    | ok cm =>
      cases h2 : cl.createRoles c.roles with
      | error e =>
        simp only [Checkup.setup, h1, h2, List.mem_cons, List.not_mem_nil, or_false]
        rintro (rfl | rfl) <;> rfl
      | ok rs =>
        cases h3 : cl.createRoleBindings c.roleBindings <;>
          · simp only [Checkup.setup, h1, h2, h3, List.mem_cons, List.not_mem_nil, or_false]
            rintro (rfl | rfl | rfl) <;> rfl
  · intro e h1
    simp [Checkup.setup, h1]
  · intro cm e h1 h2
    simp [Checkup.setup, h1, h2]
  · intro cm rs e h1 h2 h3
    simp [Checkup.setup, h1, h2, h3]
  · intro cm rs rbs h1 h2 h3
    simp [Checkup.setup, h1, h2, h3]

/-- Witness for `setup_order_and_first_failure`: with an oracle whose
config-map creation fails, setup returns the wrapped error after
attempting only that first creation. -/
theorem setup_order_and_first_failure_witness :
    (Checkup.setup clFail checkupExample).err = some ("setup: " ++ "cm-create-failed")
    ∧ (Checkup.setup clFail checkupExample).trace =
        [Op.createConfigMap checkupExample.resultConfigMap]
    ∧ (Checkup.setup clFail checkupExample).state = checkupExample :=
  (setup_order_and_first_failure clFail checkupExample).2.1 "cm-create-failed" rfl

/-- C3: `Run` first attempts to create the job, then blocks on the
completion wait bounded by the held execution timeout (which `New` set
to the plan's timeout); either failure is returned wrapped with the
`run` tag, each collaborator call is attempted at most once (no retry),
and on success the status-updated job returned by the wait replaces the
held reference. -/
theorem run_create_wait_no_retry (cl : Client) (c : Checkup) :
    (∀ e, cl.jobCreate c.job = .error e →
        (Checkup.run cl c).err = some ("run: " ++ e)
        ∧ (Checkup.run cl c).trace = [Op.createJob c.job]
        ∧ (Checkup.run cl c).state = c)
    ∧ (∀ j e, cl.jobCreate c.job = .ok j →
        cl.waitForJobToFinish j c.jobTimeout = .error e →
        (Checkup.run cl c).err = some ("run: " ++ e)
        ∧ (Checkup.run cl c).trace = [Op.createJob c.job, Op.waitForJob j c.jobTimeout]
        ∧ (Checkup.run cl c).state = { c with job := some j })
    ∧ (∀ j updatedJob, cl.jobCreate c.job = .ok j →
        cl.waitForJobToFinish j c.jobTimeout = .ok updatedJob →
        (Checkup.run cl c).err = none
        ∧ (Checkup.run cl c).trace = [Op.createJob c.job, Op.waitForJob j c.jobTimeout]
        ∧ (Checkup.run cl c).state = { c with job := some updatedJob })
    ∧ (∀ targetNs r cfg, (New targetNs r cfg).jobTimeout = cfg.timeout) := by
  refine ⟨?_, ?_, ?_, fun _ _ _ => rfl⟩
  · intro e h1
    simp [Checkup.run, h1]
  · intro j e h1 h2
    simp [Checkup.run, h1, h2]
  · intro j updatedJob h1 h2
    simp [Checkup.run, h1, h2]

/-- Witness for `run_create_wait_no_retry`: with the all-success oracle
and a state holding a job, run creates then waits with the held timeout
and stores the status-updated job. -/
theorem run_create_wait_no_retry_witness :
    (Checkup.run clOk checkupExample).err = none
    ∧ (Checkup.run clOk checkupExample).trace =
        [Op.createJob (some jobExample),
         Op.waitForJob jobExample checkupExample.jobTimeout]
    ∧ (Checkup.run clOk checkupExample).state =
        { checkupExample with job := some { jobExample with status := "Complete" } } :=
  (run_create_wait_no_retry clOk checkupExample).2.2.1 jobExample
    { jobExample with status := "Complete" } rfl rfl

/-- C10: every orchestrator built by `New` holds a non-nil workload from
construction onward: `New` stores a job, `Setup` and `Run` never clear
it, on any state holding a job `Logs` proceeds to the fetch (the nil
guard does not trigger), and `Teardown` on any such state — including a
fresh one on which `Run` was never called — attempts delete-and-wait on
the held job. -/
theorem new_job_never_nil (cl : Client) (targetNs r : String) (cfg : Config) :
    ((New targetNs r cfg).job).isSome = true
    ∧ (∀ c : Checkup, c.job.isSome = true →
        ((Checkup.setup cl c).state.job).isSome = true)
    ∧ (∀ c : Checkup, c.job.isSome = true →
        ((Checkup.run cl c).state.job).isSome = true)
    ∧ (∀ c : Checkup, ∀ j, c.job = some j →
        (Checkup.logs cl c).2.2 = [Op.getLogs j])
    ∧ (∀ c : Checkup, ∀ j, c.job = some j →
        Op.deleteJobAndWait j c.teardownTimeout ∈ (Checkup.teardown cl c).trace) := by
  refine ⟨rfl, ?_, ?_, ?_, ?_⟩
  · intro c hc
    cases h1 : cl.configmapCreate c.resultConfigMap with
    | error e => simpa [Checkup.setup, h1] using hc
    | ok cm =>
      cases h2 : cl.createRoles c.roles with
      | error e => simpa [Checkup.setup, h1, h2] using hc
      | ok rs =>
        cases h3 : cl.createRoleBindings c.roleBindings <;>
          simpa [Checkup.setup, h1, h2, h3] using hc
  · intro c hc
    cases h1 : cl.jobCreate c.job with
    | error e => simpa [Checkup.run, h1] using hc
    | ok j =>
      cases h2 : cl.waitForJobToFinish j c.jobTimeout <;>
        simp [Checkup.run, h1, h2]
  · intro c j hj
    cases h : cl.getLogs j <;> simp [Checkup.logs, hj, h]
  · intro c j hj
    cases h : cl.jobDeleteAndWait j c.teardownTimeout <;>
      simp [Checkup.teardown, hj, h]

/-- Witness for `new_job_never_nil` on a concrete state with a job. -/
theorem new_job_never_nil_witness :
    ((Checkup.setup clOk checkupExample).state.job).isSome = true
    ∧ ((Checkup.run clOk checkupExample).state.job).isSome = true
    ∧ (Checkup.logs clOk checkupExample).2.2 = [Op.getLogs jobExample]
    ∧ Op.deleteJobAndWait jobExample checkupExample.teardownTimeout
        ∈ (Checkup.teardown clOk checkupExample).trace :=
  ⟨(new_job_never_nil clOk "target-ns" "chk" cfgExample).2.1 checkupExample rfl,
   (new_job_never_nil clOk "target-ns" "chk" cfgExample).2.2.1 checkupExample rfl,
   (new_job_never_nil clOk "target-ns" "chk" cfgExample).2.2.2.1 checkupExample jobExample rfl,
   (new_job_never_nil clOk "target-ns" "chk" cfgExample).2.2.2.2 checkupExample jobExample rfl⟩

/-- C4 counterexample: on an orchestrator freshly built by `New` — so
`Run` has not created the workload — `Logs` does not fail at all: with a
log-fetch oracle that succeeds it returns no error (and emits the fetched
text to the program log), because `New` already stored a non-nil job
description and the nil guard therefore does not trigger. -/
theorem logs_before_run_counterexample :
    (Checkup.logs clOk (New "target-ns" "chk" cfgExample)).1 = none
    ∧ (Checkup.logs clOk (New "target-ns" "chk" cfgExample)).2.1 =
        some ("checkup job \x22chk-checkup\x22 Logs:\nhello\n") := by
  constructor <;> rfl

/-- C4 (amended): `Logs` fails with the explicit `"job is nil"` error
exactly when the held workload reference is nil — which never holds for
an instance built by `New`, even before `Run` — and otherwise fetches
the workload's log stream, writes it to the program log, and returns
the fetch error unwrapped on fetch failure or no error on success (the
text itself is not part of the return value). -/
theorem logs_nil_guard_and_fetch (cl : Client) (c : Checkup) :
    (c.job = none → Checkup.logs cl c = (some "job is nil", none, []))
    ∧ (∀ j, c.job = some j →
        (∀ e, cl.getLogs j = .error e →
            Checkup.logs cl c = (some e, none, [Op.getLogs j]))
        ∧ (∀ s, cl.getLogs j = .ok s →
            Checkup.logs cl c =
              (none,
               some ("checkup job \x22" ++ j.name ++ "\x22 Logs:\n" ++ s ++ "\n"),
               [Op.getLogs j])))
    ∧ (∀ targetNs r cfg, (New targetNs r cfg).job ≠ none) := by
  refine ⟨?_, ?_, fun _ _ _ h => Option.noConfusion h⟩
  · intro h
    simp [Checkup.logs, h]
  · intro j hj
    constructor
    · intro e h
      simp [Checkup.logs, hj, h]
    · intro s h
      simp [Checkup.logs, hj, h]

/-- Witness for `logs_nil_guard_and_fetch` on the all-success oracle. -/
theorem logs_nil_guard_and_fetch_witness :
    Checkup.logs clOk checkupExample =
      (none,
       some ("checkup job \x22" ++ jobExample.name ++ "\x22 Logs:\n" ++ "hello" ++ "\n"),
       [Op.getLogs jobExample]) :=
  ((logs_nil_guard_and_fetch clOk checkupExample).2.1 jobExample rfl).2 "hello" rfl

/-- An optional entry of the untyped parameter mapping. -/
def optEntry (key : String) : Option String → List (String × String)
  | none => []
  | some v => [(key, v)]

/-- A parameter mapping holding the two mandatory keys plus any subset
of the four optional keys (sample duration, max latency, source node,
target node), mirroring the mappings built in the validator's tests. -/
def mkVmLatencyParams (netName netNs : String)
    (sd ml src tgt : Option String) : List (String × String) :=
  [(NetworkNameParamName, netName), (NetworkNamespaceParamName, netNs)]
  ++ optEntry SampleDurationSecondsParamName sd
  ++ optEntry DesiredMaxLatencyMillisecondsParamName ml
  ++ optEntry SourceNodeNameParamName src
  ++ optEntry TargetNodeNameParamName tgt

/-- C5: for every mapping holding the mandatory keys with non-empty
values (and no numeric keys), the source/target node pair is accepted
exactly when both keys are absent or both are present with non-empty
values; each of the four other combinations — source only, target only,
source empty with target set, target empty with source set — fails with
the same paired-combination error. -/
theorem paired_node_params_validation (netName netNs src tgt : String)
    (h1 : netName ≠ "") (h2 : netNs ≠ "") :
    vmLatencyConfigNew (mkVmLatencyParams netName netNs none none none none) =
      .ok { networkAttachmentDefinitionName := netName
            networkAttachmentDefinitionNamespace := netNs
            sampleDurationSeconds := DefaultSampleDurationSeconds
            desiredMaxLatencyMilliseconds := DefaultDesiredMaxLatencyMilliseconds
            sourceNodeName := ""
            targetNodeName := "" }
    ∧ (src ≠ "" → tgt ≠ "" →
        vmLatencyConfigNew
            (mkVmLatencyParams netName netNs none none (some src) (some tgt)) =
          .ok { networkAttachmentDefinitionName := netName
                networkAttachmentDefinitionNamespace := netNs
                sampleDurationSeconds := DefaultSampleDurationSeconds
                desiredMaxLatencyMilliseconds := DefaultDesiredMaxLatencyMilliseconds
                sourceNodeName := src
                targetNodeName := tgt })
    ∧ vmLatencyConfigNew (mkVmLatencyParams netName netNs none none (some src) none) =
        .error .illegalSourceAndTargetNodesCombination
    ∧ vmLatencyConfigNew (mkVmLatencyParams netName netNs none none none (some tgt)) =
        .error .illegalSourceAndTargetNodesCombination
    ∧ vmLatencyConfigNew (mkVmLatencyParams netName netNs none none (some "") (some tgt)) =
        .error .illegalSourceAndTargetNodesCombination
    ∧ vmLatencyConfigNew (mkVmLatencyParams netName netNs none none (some src) (some "")) =
        .error .illegalSourceAndTargetNodesCombination := by
  refine ⟨?_, ?_, ?_, ?_, ?_, ?_⟩
  · simp [vmLatencyConfigNew, mkVmLatencyParams, optEntry, lookupParam, h1, h2,
      NetworkNameParamName, NetworkNamespaceParamName, SampleDurationSecondsParamName, DesiredMaxLatencyMillisecondsParamName, SourceNodeNameParamName, TargetNodeNameParamName]
  · intro hsrc htgt
    simp [vmLatencyConfigNew, mkVmLatencyParams, optEntry, lookupParam, h1, h2, hsrc, htgt,
      NetworkNameParamName, NetworkNamespaceParamName, SampleDurationSecondsParamName, DesiredMaxLatencyMillisecondsParamName, SourceNodeNameParamName, TargetNodeNameParamName]
  · simp [vmLatencyConfigNew, mkVmLatencyParams, optEntry, lookupParam, h1, h2,
      NetworkNameParamName, NetworkNamespaceParamName, SampleDurationSecondsParamName, DesiredMaxLatencyMillisecondsParamName, SourceNodeNameParamName, TargetNodeNameParamName]
  · simp [vmLatencyConfigNew, mkVmLatencyParams, optEntry, lookupParam, h1, h2,
      NetworkNameParamName, NetworkNamespaceParamName, SampleDurationSecondsParamName, DesiredMaxLatencyMillisecondsParamName, SourceNodeNameParamName, TargetNodeNameParamName]
  · simp [vmLatencyConfigNew, mkVmLatencyParams, optEntry, lookupParam, h1, h2,
      NetworkNameParamName, NetworkNamespaceParamName, SampleDurationSecondsParamName, DesiredMaxLatencyMillisecondsParamName, SourceNodeNameParamName, TargetNodeNameParamName]
  · simp [vmLatencyConfigNew, mkVmLatencyParams, optEntry, lookupParam, h1, h2,
      NetworkNameParamName, NetworkNamespaceParamName, SampleDurationSecondsParamName, DesiredMaxLatencyMillisecondsParamName, SourceNodeNameParamName, TargetNodeNameParamName]

/-- Witness for `paired_node_params_validation`: the spec's end-to-end
scenario 2, source node set without a target node. -/
theorem paired_node_params_validation_witness :
    vmLatencyConfigNew
        (mkVmLatencyParams "blue-net" "default" none none (some "worker1") none) =
      .error .illegalSourceAndTargetNodesCombination :=
  (paired_node_params_validation "blue-net" "default" "worker1" "worker2"
    (by decide) (by decide)).2.2.1

/-- C6: with valid mandatory keys, each optional numeric key resolves to
its documented default when absent; when present with a value on which
the integer parse fails, the validator fails with an error wrapping the
parse's cause, so a non-numeric value (syntax cause) and an out-of-range
integer (range cause) remain distinguishable — as witnessed on the
test inputs `"3rr0r"` (syntax) and `"39213801928309128309"` (range). -/
theorem numeric_params_validation (netName netNs : String)
    (h1 : netName ≠ "") (h2 : netNs ≠ "") :
    vmLatencyConfigNew (mkVmLatencyParams netName netNs none none none none) =
      .ok { networkAttachmentDefinitionName := netName
            networkAttachmentDefinitionNamespace := netNs
            sampleDurationSeconds := DefaultSampleDurationSeconds
            desiredMaxLatencyMilliseconds := DefaultDesiredMaxLatencyMilliseconds
            sourceNodeName := ""
            targetNodeName := "" }
    ∧ (∀ v cause, goAtoi v = .error cause →
        vmLatencyConfigNew (mkVmLatencyParams netName netNs (some v) none none none) =
          .error (.numErr cause))
    ∧ (∀ v cause, goAtoi v = .error cause →
        vmLatencyConfigNew (mkVmLatencyParams netName netNs none (some v) none none) =
          .error (.numErr cause))
    ∧ goAtoi "3rr0r" = .error .notAnInteger
    ∧ goAtoi "39213801928309128309" = .error .outOfRange
    ∧ ConfigError.numErr .notAnInteger ≠ ConfigError.numErr .outOfRange := by
  refine ⟨?_, ?_, ?_, rfl, rfl, by decide⟩
  · simp [vmLatencyConfigNew, mkVmLatencyParams, optEntry, lookupParam, h1, h2,
      NetworkNameParamName, NetworkNamespaceParamName, SampleDurationSecondsParamName,
      DesiredMaxLatencyMillisecondsParamName, SourceNodeNameParamName, TargetNodeNameParamName]
  · intro v cause hv
    simp [vmLatencyConfigNew, mkVmLatencyParams, optEntry, lookupParam, h1, h2, hv,
      NetworkNameParamName, NetworkNamespaceParamName, SampleDurationSecondsParamName,
      DesiredMaxLatencyMillisecondsParamName, SourceNodeNameParamName, TargetNodeNameParamName]
  · intro v cause hv
    simp [vmLatencyConfigNew, mkVmLatencyParams, optEntry, lookupParam, h1, h2, hv,
      NetworkNameParamName, NetworkNamespaceParamName, SampleDurationSecondsParamName,
      DesiredMaxLatencyMillisecondsParamName, SourceNodeNameParamName, TargetNodeNameParamName]

/-- Witness for `numeric_params_validation`: the spec's end-to-end
scenario 3, an out-of-range max-latency value, plus a default
resolution on a concrete mapping. -/
theorem numeric_params_validation_witness :
    vmLatencyConfigNew
        (mkVmLatencyParams "blue-net" "default" none
          (some "39213801928309128309") none none) =
      .error (.numErr .outOfRange)
    ∧ vmLatencyConfigNew (mkVmLatencyParams "blue-net" "default" none none none none) =
        .ok { networkAttachmentDefinitionName := "blue-net"
              networkAttachmentDefinitionNamespace := "default"
              sampleDurationSeconds := DefaultSampleDurationSeconds
              desiredMaxLatencyMilliseconds := DefaultDesiredMaxLatencyMilliseconds
              sourceNodeName := ""
              targetNodeName := "" } :=
  ⟨(numeric_params_validation "blue-net" "default" (by decide) (by decide)).2.2.1
      "39213801928309128309" .outOfRange rfl,
   (numeric_params_validation "blue-net" "default" (by decide) (by decide)).1⟩

/-- Corroboration of the spec-modelled validator against the Go test
`TestCreateConfigFromParamsShould`, first case: with mandatory keys and
an explicit max latency, the sample duration resolves to its default. -/
theorem validator_matches_test_default_sample :
    vmLatencyConfigNew
        [(NetworkNameParamName, "blue-net"), (NetworkNamespaceParamName, "default"),
         (DesiredMaxLatencyMillisecondsParamName, "100")] =
      .ok { networkAttachmentDefinitionName := "blue-net"
            networkAttachmentDefinitionNamespace := "default"
            sampleDurationSeconds := DefaultSampleDurationSeconds
            desiredMaxLatencyMilliseconds := 100
            sourceNodeName := ""
            targetNodeName := "" } := rfl

/-- Corroboration against `TestCreateConfigFromParamsShouldFailWhen`:
nil or empty parameter maps fail with the invalid-params error. -/
theorem validator_matches_test_empty_params :
    vmLatencyConfigNew [] = .error .invalidParams := rfl

/-- Corroboration against
`TestCreateConfigFromParamsShouldFailWhenMandatoryParamsAreMissing` and
`...AreInvalid`: a missing or empty mandatory key fails with that key's
dedicated error, network name checked before namespace. -/
theorem validator_matches_test_mandatory_keys :
    vmLatencyConfigNew [(NetworkNamespaceParamName, "default")] =
      .error .invalidNetworkName
    ∧ vmLatencyConfigNew [(NetworkNameParamName, "blue-net")] =
        .error .invalidNetworkNamespace
    ∧ vmLatencyConfigNew
        [(NetworkNameParamName, ""), (NetworkNamespaceParamName, "default")] =
        .error .invalidNetworkName
    ∧ vmLatencyConfigNew
        [(NetworkNameParamName, "blue-net"), (NetworkNamespaceParamName, "")] =
        .error .invalidNetworkNamespace := ⟨rfl, rfl, rfl, rfl⟩

/-- Corroboration against the test that sets both node names: both keys
present with non-empty values are accepted verbatim. -/
theorem validator_matches_test_both_nodes :
    vmLatencyConfigNew
        [(NetworkNameParamName, "blue-net"), (NetworkNamespaceParamName, "default"),
         (SampleDurationSecondsParamName, "60"),
         (SourceNodeNameParamName, "worker1"), (TargetNodeNameParamName, "worker2")] =
      .ok { networkAttachmentDefinitionName := "blue-net"
            networkAttachmentDefinitionNamespace := "default"
            sampleDurationSeconds := 60
            desiredMaxLatencyMilliseconds := DefaultDesiredMaxLatencyMilliseconds
            sourceNodeName := "worker1"
            targetNodeName := "worker2" } := rfl
